import Mathlib

/-!
Verification of the structured error-reporting subsystem of go-yaml
(package internal/libyaml, file errors.go), shallowly embedded in Lean.

Go machine integers are modelled as `Int` (they never overflow in this
subsystem), Go strings as `String`, Go `error` interface values that are
leaf errors (created by errors.New) as `ErrVal` carrying an allocation
identity and a message, and a nil-able error field as `Option ErrVal`.
-/

/-- A Go leaf error value, as produced by errors.New: it renders as its
message, and two values are equal (in the sense of Go interface equality,
used by errors.Is) only when they are the same allocation, which the
`id` field models. -/
structure ErrVal where
  id : Nat
  msg : String
deriving DecidableEq, Repr

/-- Modelled from the spec: the Position Mark type is not under src/
(only its uses in errors.go and its construction in the tests are);
the spec gives it fields line, column and index, all nonnegative,
with line 0 denoting an unknown position. -/
structure Mark where
  line : Int
  column : Int
  index : Int
deriving DecidableEq, Repr

/-- Modelled from the spec: single-point rendering of a Mark,
"line L, column C". -/
def Mark.shortString (m : Mark) : String :=
  "line " ++ toString m.line ++ ", column " ++ toString m.column

/-- Modelled from the spec: two-point rendering of a pair of Marks,
collapsing to the single-point text when the marks are equal. -/
def Mark.rangeString (m other : Mark) : String :=
  if m = other then m.shortString
  else m.shortString ++ "-" ++ other.shortString

/-- Modelled from the spec: the default rendering of a Mark used by the
%s format verb; the spec specifies only the single-point form, so it is
taken to coincide with shortString. -/
def Mark.render (m : Mark) : String :=
  m.shortString

/-- Stage identifies the processing stage where an error occurred. -/
abbrev Stage := String

def ReaderStage : Stage := "reader"

def ScannerStage : Stage := "scanner"

def ParserStage : Stage := "parser"

def ComposerStage : Stage := "composer"

def ResolverStage : Stage := "resolver"

def ConstructorStage : Stage := "constructor"

/-- LoadError from errors.go: stage, message, position information and
an optional underlying error. -/
structure LoadError where
  stage : Stage
  message : String
  mark : Mark
  contextMark : Mark
  contextMsg : String
  err : Option ErrVal
deriving DecidableEq, Repr

/-- LoadError.Error from errors.go: builds
"go-yaml Load error: <message>\n  in <stage>" and then either the
context clause with a range or " at " with the single-point mark. -/
def LoadError.Error (e : LoadError) : String :=
  "go-yaml Load error: " ++ e.message ++ "\n  in " ++ e.stage ++
    (if e.contextMsg.length > 0 then
      " (" ++ e.contextMsg ++ ") at " ++ e.contextMark.rangeString e.mark
    else
      " at " ++ e.mark.shortString)

/-- LoadError.simpleError from errors.go: the context clause is written
whenever ContextMsg is nonempty, and the line (or unknown-position)
clause is written whenever ContextMsg is empty or ContextMark differs
from Mark; the message is appended verbatim. -/
def LoadError.simpleError (e : LoadError) : String :=
  (if e.contextMsg.length > 0 then
    e.contextMsg ++ " at " ++ e.contextMark.render ++ ": "
  else "") ++
  (if e.contextMsg.length = 0 ∨ e.contextMark ≠ e.mark then
    (if e.mark.line > 0 then
      "line " ++ toString e.mark.line ++ ": "
    else
      "<unknown position>: ")
  else "") ++
  e.message

/-- LoadError.Unwrap from errors.go: returns the underlying error. -/
def LoadError.Unwrap (e : LoadError) : Option ErrVal :=
  e.err

/-- ConstructError from errors.go: deprecated flat error shape. -/
structure ConstructError where
  err : Option ErrVal
  line : Int
  column : Int
deriving DecidableEq, Repr

/-- ConstructError.Error from errors.go: "line <Line>: " followed by the
message of the underlying error; `none` models the nil underlying error,
on which the Go code would fault calling Error(). -/
def ConstructError.Error (e : ConstructError) : Option String :=
  e.err.map (fun c => "line " ++ toString e.line ++ ": " ++ c.msg)

/-- TypeError from errors.go: deprecated error shape holding a list of
messages. -/
structure TypeError where
  errors : List String
deriving DecidableEq, Repr

/-- Go strings.Join: the elements separated by sep. -/
def goJoin (sep : String) : List String → String
  | [] => ""
  | [s] => s
  | s :: rest => s ++ sep ++ goJoin sep rest

/-- TypeError.Error from errors.go:
"yaml: unmarshal errors:\n  " followed by the messages joined by "\n  ". -/
def TypeError.Error (e : TypeError) : String :=
  "yaml: unmarshal errors:\n  " ++ goJoin "\n  " e.errors

/-- LoadErrors from errors.go: an ordered collection of LoadError. -/
structure LoadErrors where
  errors : List LoadError
deriving DecidableEq, Repr

/-- LoadErrors.Error from errors.go: starts from the header
"yaml: construct errors:" and appends "\n  " plus simpleError for each
element in order, exactly as the Go loop over a strings.Builder does. -/
def LoadErrors.Error (e : LoadErrors) : String :=
  e.errors.foldl (fun b err => b ++ "\n  " ++ err.simpleError)
    "yaml: construct errors:"

/-- The kind of target pointer handed to errors.As, as far as the type
switch in LoadErrors.As distinguishes them. -/
inductive AsTarget where
  | loadError
  | constructError
  | typeError
  | otherKind
deriving DecidableEq, Repr

/-- The observable outcome of LoadErrors.As: whether it returned true,
and if so what it stored through the target pointer. -/
inductive AsResult where
  | noMatch
  | asLoadError (e : LoadError)
  | asConstructError (c : ConstructError)
  | asTypeError (t : TypeError)
deriving DecidableEq, Repr

/-- LoadErrors.As from errors.go: type switch on the target. A
LoadError target gets element 0 when nonempty; a ConstructError target
gets a fresh value built from element 0 when nonempty; a TypeError
target always gets the list of simpleError strings; anything else does
not match. -/
def LoadErrors.As (e : LoadErrors) (target : AsTarget) : AsResult :=
  match target with
  | .loadError =>
    match e.errors with
    | [] => .noMatch
    | first :: _ => .asLoadError first
  | .constructError =>
    match e.errors with
    | [] => .noMatch
    | first :: _ =>
      .asConstructError ⟨first.err, first.mark.line, first.mark.column⟩
  | .typeError =>
    .asTypeError ⟨e.errors.map (fun err => err.simpleError)⟩
  | .otherKind => .noMatch

/-- Go errors.Is applied to a single *LoadError against a leaf target
error: the *LoadError itself never equals a leaf target under interface
equality, so errors.Is unwraps once to the Err field and compares it to
the target under interface equality (allocation identity); a nil Err
stops the walk with false, and a leaf error has no further unwrapping. -/
def goErrorsIs (e : LoadError) (target : ErrVal) : Bool :=
  match e.err with
  | none => false
  | some c => c = target

/-- LoadErrors.Is from errors.go: true when errors.Is succeeds for some
element against the target. -/
def LoadErrors.Is (e : LoadErrors) (target : ErrVal) : Bool :=
  e.errors.any (fun err => goErrorsIs err target)

/-- YAMLError from errors.go: the internal error wrapper carried by the
abrupt unwind. -/
structure YAMLError where
  err : ErrVal
deriving DecidableEq, Repr

/-- A Go panic value as far as handleErr distinguishes them: either the
internal wrapper *YAMLError, or any other value (tagged abstractly). -/
inductive PanicValue where
  | yamlError (e : YAMLError)
  | other (tag : Nat)
deriving DecidableEq, Repr

/-- handleErr from errors.go, as a function of the recovered panic value
(`none` when recover returns nil) and the current value of the deferred
error slot: it returns the new value of the error slot and the panic
value it re-raises, if any. -/
def handleErr (err : Option ErrVal) (recovered : Option PanicValue) :
    Option ErrVal × Option PanicValue :=
  match recovered with
  | none => (err, none)
  | some v =>
    match v with
    | .yamlError e => (some e.err, none)
    | .other _ => (err, some v)

/-- How the body of a public entry point can finish: returning normally
with the error slot set to some value, or unwinding abruptly with a
panic value while the error slot holds some value. -/
inductive BodyOutcome where
  | normal (err : Option ErrVal)
  | panicked (err : Option ErrVal) (v : PanicValue)
deriving DecidableEq, Repr

/-- What the caller of a public entry point observes: a normal return
carrying the error result, or a propagating unwind. -/
inductive CallResult where
  | returns (err : Option ErrVal)
  | unwinds (v : PanicValue)
deriving DecidableEq, Repr

/-- Modelled from the spec: the public entry points that install
handleErr with defer are not under src/; per the spec every public
entry point wraps its body in this unconditional recovery step, so the
entry point boundary is the deferred handleErr applied to the body
outcome. -/
def runEntryPoint (b : BodyOutcome) : CallResult :=
  match b with
  | .normal err =>
    match handleErr err none with
    | (errOut, none) => .returns errOut
    | (_, some v) => .unwinds v
  | .panicked err v =>
    match handleErr err (some v) with
    | (errOut, none) => .returns errOut
    | (_, some vOut) => .unwinds vOut

/-! Helper lemmas about strings. -/

/-- A string has positive length exactly when it is nonempty. -/
theorem strLength_pos_iff (s : String) : 0 < s.length ↔ s ≠ "" := by
  rcases s with ⟨data⟩
  cases data with
  | nil => simp [String.length]
  | cons a as =>
    simp only [String.length]
    constructor
    · intro h hEq
      have := congrArg String.data hEq
      simp at this
    · intro h
      simp

/-- Folding string append over a list starting from b prepends b to the
join of the list. -/
theorem string_foldl_append (ys : List String) (b : String) :
    ys.foldl (fun r s => r ++ s) b = b ++ String.join ys := by
  induction ys generalizing b with
  | nil => simp [String.join]
  | cons y ys ih =>
    have h2 : String.join (y :: ys) = y ++ String.join ys := by
      show List.foldl (fun r s => r ++ s) ("" ++ y) ys = y ++ String.join ys
      rw [ih, String.empty_append]
    rw [List.foldl_cons, ih, h2, String.append_assoc]

/-- String.join distributes over cons. -/
theorem string_join_cons (y : String) (ys : List String) :
    String.join (y :: ys) = y ++ String.join ys := by
  show List.foldl (fun r s => r ++ s) ("" ++ y) ys = y ++ String.join ys
  rw [string_foldl_append, String.empty_append]

/-- The builder loop of LoadErrors.Error, starting from any string,
appends one "\n  " plus simpleError chunk per element in order. -/
theorem loadErrors_foldl_join (l : List LoadError) (b : String) :
    l.foldl (fun acc e => acc ++ "\n  " ++ e.simpleError) b =
      b ++ String.join (l.map (fun e => "\n  " ++ e.simpleError)) := by
  induction l generalizing b with
  | nil => simp [String.join]
  | cons x xs ih =>
    rw [List.foldl_cons, ih, List.map_cons, string_join_cons]
    simp [String.append_assoc]

/-- The tail part of a separated join: one separator before each
element. -/
def goJoinRest (sep : String) : List String → String
  | [] => ""
  | s :: rest => sep ++ s ++ goJoinRest sep rest

/-- goJoin on a nonempty list is the head followed by the separated
tail. -/
theorem goJoin_cons (sep a : String) (as : List String) :
    goJoin sep (a :: as) = a ++ goJoinRest sep as := by
  induction as generalizing a with
  | nil => simp [goJoin, goJoinRest, String.append_empty]
  | cons b rest ih =>
    show a ++ sep ++ goJoin sep (b :: rest) = a ++ goJoinRest sep (b :: rest)
    rw [ih b]
    simp [goJoinRest, String.append_assoc]

/-- The accumulator loop of String.intercalate produces the accumulator
followed by the separated tail. -/
theorem intercalate_go_eq (sep : String) (l : List String) (acc : String) :
    String.intercalate.go acc sep l = acc ++ goJoinRest sep l := by
  induction l generalizing acc with
  | nil => simp [String.intercalate.go, goJoinRest, String.append_empty]
  | cons a as ih =>
    show String.intercalate.go (acc ++ sep ++ a) sep as = acc ++ goJoinRest sep (a :: as)
    rw [ih]
    simp [goJoinRest, String.append_assoc]

/-- Go strings.Join coincides with String.intercalate. -/
theorem goJoin_eq_intercalate (sep : String) (l : List String) :
    goJoin sep l = String.intercalate sep l := by
  cases l with
  | nil => rfl
  | cons a as =>
    show goJoin sep (a :: as) = String.intercalate.go a sep as
    rw [goJoin_cons, intercalate_go_eq]

/-- goErrorsIs succeeds exactly when the element cause is the target
error value. -/
theorem goErrorsIs_eq_true (e : LoadError) (t : ErrVal) :
    goErrorsIs e t = true ↔ e.err = some t := by
  cases h : e.err with
  | none => simp [goErrorsIs, h]
  | some c => simp [goErrorsIs, h]

/-! Claim theorems. -/

/-- C1: a body that aborts with an abrupt unwind carrying the internal
wrapper YAMLError with payload P makes the guarded entry point return
normally with its error result exactly P and no wrapper observable; any
other abrupt unwind is re-raised unchanged; a body that completes
normally leaves the error slot untouched. -/
theorem handleErr_boundary_recovery :
    (∀ (errSlot : Option ErrVal) (P : ErrVal),
      runEntryPoint (.panicked errSlot (.yamlError ⟨P⟩)) = .returns (some P)) ∧
    (∀ (errSlot : Option ErrVal) (tag : Nat),
      runEntryPoint (.panicked errSlot (.other tag)) = .unwinds (.other tag)) ∧
    (∀ errSlot : Option ErrVal,
      runEntryPoint (.normal errSlot) = .returns errSlot) :=
  ⟨fun _ _ => rfl, fun _ _ => rfl, fun _ => rfl⟩

/-- C2: on a nonempty aggregate, As with a LoadError target yields
element 0; with a ConstructError target it yields a view built from the
cause and the mark line and column of element 0; with a TypeError target
it yields one simpleError message per element in order; any other target
kind does not match. -/
theorem loadErrors_As_nonempty (es : LoadErrors) (h : es.errors ≠ []) :
    es.As .loadError = .asLoadError (es.errors.head h) ∧
    es.As .constructError = .asConstructError
      ⟨(es.errors.head h).err, (es.errors.head h).mark.line,
        (es.errors.head h).mark.column⟩ ∧
    es.As .typeError = .asTypeError ⟨es.errors.map (fun e => e.simpleError)⟩ ∧
    es.As .otherKind = .noMatch := by
  obtain ⟨errs⟩ := es
  cases errs with
  | nil => exact absurd rfl h
  | cons first rest => exact ⟨rfl, rfl, rfl, rfl⟩

/-- Element used by the C2 witness: cause message X and mark line 7, as
in Scenario C of the spec. -/
def elemC2 : LoadError :=
  ⟨ConstructorStage, "X", ⟨7, 1, 0⟩, ⟨0, 0, 0⟩, "", some ⟨4, "X"⟩⟩

/-- Aggregate used by the C2 witness. -/
def aggC2 : LoadErrors := ⟨[elemC2]⟩

/-- Witness for C2 at a concrete one-element aggregate. -/
theorem loadErrors_As_nonempty_witness :
    aggC2.As .loadError = .asLoadError elemC2 ∧
    aggC2.As .constructError =
      .asConstructError ⟨elemC2.err, elemC2.mark.line, elemC2.mark.column⟩ ∧
    aggC2.As .typeError = .asTypeError ⟨[elemC2.simpleError]⟩ ∧
    aggC2.As .otherKind = .noMatch :=
  loadErrors_As_nonempty aggC2 (List.cons_ne_nil _ _)

/-- C3: on the empty aggregate, As with a TypeError target succeeds with
zero messages, while LoadError and ConstructError targets both fail. -/
theorem loadErrors_As_empty :
    LoadErrors.As ⟨[]⟩ .typeError = .asTypeError ⟨[]⟩ ∧
    LoadErrors.As ⟨[]⟩ .loadError = .noMatch ∧
    LoadErrors.As ⟨[]⟩ .constructError = .noMatch :=
  ⟨rfl, rfl, rfl⟩

/-- Element used by the C4 counterexample: its cause is allocation 0
with message X. -/
def loadErrC4 : LoadError :=
  ⟨ConstructorStage, "m", ⟨1, 0, 0⟩, ⟨0, 0, 0⟩, "", some ⟨0, "X"⟩⟩

/-- Aggregate used by the C4 counterexample. -/
def aggC4 : LoadErrors := ⟨[loadErrC4]⟩

/-- Target used by the C4 counterexample: a distinct allocation with the
same message X. -/
def targetC4 : ErrVal := ⟨1, "X"⟩

/-- C4 counterexample: the aggregate has an element whose cause message
text equals the target message text, yet Is returns false, because Go
errors.Is compares leaf errors by interface identity, not by message
text. -/
theorem loadErrors_Is_text_match_counterexample :
    LoadErrors.Is aggC4 targetC4 = false ∧
    ∃ e ∈ aggC4.errors, ∃ c, e.err = some c ∧ c.msg = targetC4.msg := by
  refine ⟨rfl, loadErrC4, ?_, ⟨0, "X"⟩, rfl, rfl⟩
  simp [aggC4]

/-- C4 amended: Is succeeds exactly when at least one element has a
cause that is the target error value itself, under the interface
identity comparison that Go errors.Is applies to leaf errors. -/
theorem loadErrors_Is_identity_match (es : LoadErrors) (t : ErrVal) :
    es.Is t = true ↔ ∃ e ∈ es.errors, e.err = some t := by
  simp [LoadErrors.Is, List.any_eq_true, goErrorsIs_eq_true]

/-- The line clause of simpleError: the known line or the
unknown-position text. -/
def lineClause (m : Mark) : String :=
  if m.line > 0 then "line " ++ toString m.line ++ ": "
  else "<unknown position>: "

/-- The simpleFormat behaviour exactly as claim C5 words it: the context
clause appears exactly when the context differs from the primary mark,
and the line or unknown-position clause always follows, then the raw
message. -/
def simpleFormatClaimC5 (e : LoadError) : String :=
  (if e.contextMsg.length > 0 ∧ e.contextMark ≠ e.mark then
    e.contextMsg ++ " at " ++ e.contextMark.render ++ ": "
  else "") ++
  lineClause e.mark ++
  e.message

/-- Input for the C5 counterexample: context message set while the
context mark equals the primary mark. -/
def ctxEqualErrC5 : LoadError :=
  ⟨ParserStage, "m", ⟨4, 2, 40⟩, ⟨4, 2, 40⟩, "c", none⟩

/-- C5 counterexample: when a context message is set and the context
mark equals the primary mark, the code still writes the context clause
and skips the line clause, so the output differs from the claimed
format. -/
theorem simpleError_context_prefix_counterexample :
    ctxEqualErrC5.simpleError ≠ simpleFormatClaimC5 ctxEqualErrC5 ∧
    ctxEqualErrC5.simpleError = "c at line 4, column 2: m" ∧
    simpleFormatClaimC5 ctxEqualErrC5 = "line 4: m" := by
  refine ⟨?_, rfl, rfl⟩
  decide

/-- C5 amended: the context clause appears exactly when the context
message is set; the line or unknown-position clause appears exactly when
the context message is unset or the context mark differs from the
primary mark; the raw message follows verbatim. -/
theorem simpleError_amended_cases (e : LoadError) :
    (e.contextMsg = "" →
      e.simpleError = lineClause e.mark ++ e.message) ∧
    (e.contextMsg ≠ "" → e.contextMark ≠ e.mark →
      e.simpleError = e.contextMsg ++ " at " ++ e.contextMark.render ++ ": " ++
        lineClause e.mark ++ e.message) ∧
    (e.contextMsg ≠ "" → e.contextMark = e.mark →
      e.simpleError = e.contextMsg ++ " at " ++ e.contextMark.render ++ ": " ++
        e.message) := by
  refine ⟨fun h => ?_, fun h hm => ?_, fun h hm => ?_⟩
  · have hl : e.contextMsg.length = 0 := by rw [h]; rfl
    simp [LoadError.simpleError, lineClause, hl, String.empty_append]
  · have hl : 0 < e.contextMsg.length := (strLength_pos_iff _).mpr h
    have hne : e.contextMsg.length ≠ 0 := Nat.pos_iff_ne_zero.mp hl
    simp [LoadError.simpleError, lineClause, hl, hne, hm, String.append_assoc]
  · have hl : 0 < e.contextMsg.length := (strLength_pos_iff _).mpr h
    have hne : e.contextMsg.length ≠ 0 := Nat.pos_iff_ne_zero.mp hl
    simp [LoadError.simpleError, hl, hne, hm, String.append_assoc,
      String.append_empty]

/-- Input for the C5 witness with no context. -/
def noCtxErrC5 : LoadError :=
  ⟨ConstructorStage, "m1", ⟨3, 1, 5⟩, ⟨0, 0, 0⟩, "", none⟩

/-- Input for the C5 witness with a context whose mark differs. -/
def ctxDiffErrC5 : LoadError :=
  ⟨ParserStage, "m2", ⟨6, 2, 9⟩, ⟨5, 1, 0⟩, "ctx", none⟩

/-- Witness for the amended C5 at three concrete inputs, one per case. -/
theorem simpleError_amended_cases_witness :
    noCtxErrC5.simpleError = lineClause noCtxErrC5.mark ++ noCtxErrC5.message ∧
    ctxDiffErrC5.simpleError = ctxDiffErrC5.contextMsg ++ " at " ++
      ctxDiffErrC5.contextMark.render ++ ": " ++ lineClause ctxDiffErrC5.mark ++
      ctxDiffErrC5.message ∧
    ctxEqualErrC5.simpleError = ctxEqualErrC5.contextMsg ++ " at " ++
      ctxEqualErrC5.contextMark.render ++ ": " ++ ctxEqualErrC5.message :=
  ⟨(simpleError_amended_cases noCtxErrC5).1 rfl,
   (simpleError_amended_cases ctxDiffErrC5).2.1 (by decide) (by decide),
   (simpleError_amended_cases ctxEqualErrC5).2.2 (by decide) rfl⟩

/-- Scenario A input: a parser-stage error with message bad indentation
at line 4, column 2, index 40, and no context. -/
def scenarioAErr : LoadError :=
  ⟨ParserStage, "bad indentation", ⟨4, 2, 40⟩, ⟨0, 0, 0⟩, "", none⟩

/-- C6: Error builds the load-error header with message and stage, then
the context clause with the range rendering when a context is set, and
the single-point rendering otherwise; Scenario A evaluates to the
expected literal. -/
theorem loadError_Error_format (e : LoadError) :
    (e.contextMsg ≠ "" →
      e.Error = "go-yaml Load error: " ++ e.message ++ "\n  in " ++ e.stage ++
        " (" ++ e.contextMsg ++ ") at " ++ e.contextMark.rangeString e.mark) ∧
    (e.contextMsg = "" →
      e.Error = "go-yaml Load error: " ++ e.message ++ "\n  in " ++ e.stage ++
        " at " ++ e.mark.shortString) ∧
    scenarioAErr.Error =
      "go-yaml Load error: bad indentation\n  in parser at line 4, column 2" := by
  refine ⟨fun h => ?_, fun h => ?_, rfl⟩
  · have hl : 0 < e.contextMsg.length := (strLength_pos_iff _).mpr h
    simp [LoadError.Error, hl, String.append_assoc]
  · have hl : e.contextMsg.length = 0 := by rw [h]; rfl
    simp [LoadError.Error, hl, String.append_assoc]

/-- Input for the C6 witness with a context set. -/
def ctxErrC6 : LoadError :=
  ⟨ScannerStage, "msg", ⟨5, 3, 10⟩, ⟨2, 1, 0⟩, "while scanning", none⟩

/-- Witness for C6 at concrete inputs with and without context. -/
theorem loadError_Error_format_witness :
    ctxErrC6.Error = "go-yaml Load error: " ++ ctxErrC6.message ++ "\n  in " ++
      ctxErrC6.stage ++ " (" ++ ctxErrC6.contextMsg ++ ") at " ++
      ctxErrC6.contextMark.rangeString ctxErrC6.mark ∧
    scenarioAErr.Error = "go-yaml Load error: " ++ scenarioAErr.message ++
      "\n  in " ++ scenarioAErr.stage ++ " at " ++ scenarioAErr.mark.shortString :=
  ⟨(loadError_Error_format ctxErrC6).1 (by decide),
   (loadError_Error_format scenarioAErr).2.1 rfl⟩

/-- C7: the aggregate Error is the construct-errors header followed by
exactly one line per element, each a newline-indent followed by the
simpleError of that element, in detection order. -/
theorem loadErrors_Error_aggregate_format (es : LoadErrors) :
    es.Error = "yaml: construct errors:" ++
      String.join (es.errors.map (fun e => "\n  " ++ e.simpleError)) :=
  loadErrors_foldl_join es.errors "yaml: construct errors:"

/-- C8: Unwrap returns nothing exactly when no cause was set, and
otherwise returns the cause unchanged, preserving its message. -/
theorem loadError_Unwrap_cause (e : LoadError) :
    (e.Unwrap = none ↔ e.err = none) ∧
    ∀ c : ErrVal, e.err = some c →
      e.Unwrap = some c ∧ e.Unwrap.map ErrVal.msg = some c.msg := by
  refine ⟨Iff.rfl, fun c h => ?_⟩
  simp [LoadError.Unwrap, h]

/-- Input for the C8 witness: a load error with a cause set. -/
def causedErrC8 : LoadError :=
  ⟨ConstructorStage, "m", ⟨2, 0, 0⟩, ⟨0, 0, 0⟩, "", some ⟨5, "cause text"⟩⟩

/-- Witness for C8 at a concrete input with a cause. -/
theorem loadError_Unwrap_cause_witness :
    causedErrC8.Unwrap = some ⟨5, "cause text"⟩ ∧
    causedErrC8.Unwrap.map ErrVal.msg = some "cause text" :=
  (loadError_Unwrap_cause causedErrC8).2 ⟨5, "cause text"⟩ rfl

/-- C9: the TypeError rendering is the unmarshal-errors header followed
by the messages joined by newline-indent, for every message list
including the empty one. -/
theorem typeError_Error_format (t : TypeError) :
    t.Error = "yaml: unmarshal errors:\n  " ++
      String.intercalate "\n  " t.errors ∧
    TypeError.Error ⟨[]⟩ = "yaml: unmarshal errors:\n  " := by
  refine ⟨?_, rfl⟩
  show "yaml: unmarshal errors:\n  " ++ goJoin "\n  " t.errors = _
  rw [goJoin_eq_intercalate]

/-- C10: the ConstructError rendering is the line clause from the Line
field followed by the cause message, and the Column field never affects
the rendered text. -/
theorem constructError_Error_line_format (e : ConstructError) :
    (∀ c : ErrVal, e.err = some c →
      e.Error = some ("line " ++ toString e.line ++ ": " ++ c.msg)) ∧
    ∀ col : Int, ConstructError.Error ⟨e.err, e.line, col⟩ = e.Error := by
  refine ⟨fun c h => ?_, fun col => rfl⟩
  simp [ConstructError.Error, h]

/-- Witness for C10 at a concrete input. -/
theorem constructError_Error_line_format_witness :
    ConstructError.Error ⟨some ⟨3, "boom"⟩, 7, 9⟩ =
      some ("line " ++ toString (7 : Int) ++ ": " ++ "boom") :=
  (constructError_Error_line_format ⟨some ⟨3, "boom"⟩, 7, 9⟩).1 ⟨3, "boom"⟩ rfl
